import Mathlib

/-!
Verification of `results/plot_results.py`, a one-shot report generator that
loads a benchmark CSV, derives one error-magnitude column on a filtered copy,
and renders two bar charts with manually overlaid error bars.

The embedding models pandas dataframes as lists of records, pandas float64
cells as exact rationals extended with infinities and NaN (so that the
division semantics of the derived-column computation, including division by
zero, is total as in numpy), the `.copy()` + column-assignment step as an
explicit heap of frames, and the bar-drawing loops with Python list-indexing
semantics.
-/

namespace PlotResults

/-- A pandas float64 cell: an exact rational, one of the two infinities, or
NaN.  Arithmetic on these values is total, mirroring IEEE-754 semantics
(division by zero produces an infinity or NaN, never an exception). -/
inductive FloatVal where
  | finite (q : ℚ)
  | posInf
  | negInf
  | nan
deriving DecidableEq

/-- Elementwise float division as performed by `pandas` on two numeric
series: total, with the IEEE zero-divisor and infinite-operand cases. -/
def fdiv : FloatVal → FloatVal → FloatVal
  | .nan, _ => .nan
  | _, .nan => .nan
  | .finite a, .finite b =>
      if b = 0 then
        if 0 < a then .posInf else if a < 0 then .negInf else .nan
      else .finite (a / b)
  | .finite _, .posInf => .finite 0
  | .finite _, .negInf => .finite 0
  | .posInf, .finite b => if b < 0 then .negInf else .posInf
  | .negInf, .finite b => if b < 0 then .posInf else .negInf
  | .posInf, _ => .nan
  | .negInf, _ => .nan

/-- Elementwise float multiplication, total, with IEEE infinite-operand and
NaN-propagation cases. -/
def fmul : FloatVal → FloatVal → FloatVal
  | .nan, _ => .nan
  | _, .nan => .nan
  | .finite a, .finite b => .finite (a * b)
  | .finite a, .posInf => if 0 < a then .posInf else if a < 0 then .negInf else .nan
  | .finite a, .negInf => if 0 < a then .negInf else if a < 0 then .posInf else .nan
  | .posInf, .finite b => if 0 < b then .posInf else if b < 0 then .negInf else .nan
  | .negInf, .finite b => if 0 < b then .negInf else if b < 0 then .posInf else .nan
  | .posInf, .posInf => .posInf
  | .posInf, .negInf => .negInf
  | .negInf, .posInf => .negInf
  | .negInf, .negInf => .posInf

/-- One row of `benchmark_results.csv`: columns Cipher, Operation, Filename,
MeanTime(ms), StdDev(ms), Throughput(MB/s). -/
structure Record where
  cipher : String
  operation : String
  filename : String
  meanTime : ℚ
  stdDev : ℚ
  throughput : ℚ
deriving DecidableEq, Inhabited

/-- Test whether `p` is an initial segment of `l` (character lists). -/
def beginsWith : List Char → List Char → Bool
  | [], _ => true
  | _ :: _, [] => false
  | p :: ps, c :: cs => p == c && beginsWith ps cs

/-- Test whether `pat` occurs contiguously anywhere inside `l`. -/
def containsSeq (pat : List Char) : List Char → Bool
  | [] => beginsWith pat []
  | c :: cs => beginsWith pat (c :: cs) || containsSeq pat cs

/-- Embedding of `Series.str.contains(pat)` for a literal pattern with no
regex metacharacters: substring containment. -/
def str_contains (s pat : String) : Bool :=
  containsSeq pat.data s.data

/-- Embedding of `df[df.Filename.str.contains(marker)]`, the filtered subset
feeding the large-file throughput chart (line 21 of the script). -/
def df_large_file (rows : List Record) : List Record :=
  rows.filter (fun r => str_contains r.filename "2_5MB")

theorem beginsWith_iff (p l : List Char) :
    beginsWith p l = true ↔ ∃ t, l = p ++ t := by
  induction p generalizing l with
  | nil => simp [beginsWith]
  | cons x xs ih =>
    cases l with
    | nil => simp [beginsWith]
    | cons c cs =>
      simp only [beginsWith, Bool.and_eq_true, beq_iff_eq, ih, List.cons_append,
        List.cons.injEq]
      constructor
      · rintro ⟨hx, t, ht⟩
        exact ⟨t, hx.symm, ht⟩
      · rintro ⟨t, hx, ht⟩
        exact ⟨hx.symm, t, ht⟩

theorem containsSeq_iff (pat l : List Char) :
    containsSeq pat l = true ↔ ∃ pre post, l = pre ++ (pat ++ post) := by
  induction l with
  | nil =>
    simp only [containsSeq, beginsWith_iff]
    constructor
    · rintro ⟨t, ht⟩
      exact ⟨[], t, by simpa using ht⟩
    · rintro ⟨pre, post, h⟩
      rcases List.append_eq_nil.mp h.symm with ⟨hpre, hrest⟩
      rcases List.append_eq_nil.mp hrest with ⟨hpat, hpost⟩
      exact ⟨[], by simp [hpat]⟩
  | cons c cs ih =>
    simp only [containsSeq, Bool.or_eq_true, beginsWith_iff, ih]
    constructor
    · rintro (⟨t, ht⟩ | ⟨pre, post, h⟩)
      · exact ⟨[], t, by simpa using ht⟩
      · exact ⟨c :: pre, post, by simp [h]⟩
    · rintro ⟨pre, post, h⟩
      cases pre with
      | nil => exact Or.inl ⟨post, by simpa using h⟩
      | cons p ps =>
        simp only [List.cons_append, List.cons.injEq] at h
        exact Or.inr ⟨ps, post, h.2⟩

/-- Distinct values of a column in order of first appearance, as produced by
`Series.unique` (the facet order seaborn uses for a non-categorical column). -/
def uniqueInOrder : List String → List String
  | [] => []
  | x :: xs => x :: uniqueInOrder (xs.filter (fun y => y ≠ x))
termination_by l => l.length
decreasing_by
  simp only [List.length_cons]
  exact Nat.lt_succ_of_le (List.length_filter_le _ _)

/-- Insert a string into a lexicographically sorted list. -/
def insertSorted (x : String) : List String → List String
  | [] => [x]
  | y :: ys => if x ≤ y then x :: y :: ys else y :: insertSorted x ys

/-- Sort strings lexicographically; used to model the sorted category set
that `astype('category')` infers for a string column. -/
def sortStrings (l : List String) : List String :=
  l.foldr insertSorted []

/-- Category order of the Cipher column after `astype('category')`: sorted
distinct values of the full dataset (lines 15-16 of the script). -/
def cipher_categories (rows : List Record) : List String :=
  sortStrings (uniqueInOrder (rows.map (fun r => r.cipher)))

/-- Category order of the Operation column after `astype('category')`. -/
def operation_categories (rows : List Record) : List String :=
  sortStrings (uniqueInOrder (rows.map (fun r => r.operation)))

/-- An RGBA color.  Only identity and distinctness of colors matter to the
script (it compares a bar face color with a palette entry for equality). -/
structure Color where
  cr : ℚ
  cg : ℚ
  cb : ℚ
  ca : ℚ
deriving DecidableEq, Inhabited

/-- Model of `sns.color_palette('viridis', 2)`.  The exact RGB values are
library data; the embedding only relies on the two entries being distinct. -/
def viridis_palette_2 : List Color :=
  [⟨267004/1000000, 4874/1000000, 329415/1000000, 1⟩,
   ⟨993248/1000000, 906157/1000000, 143936/1000000, 1⟩]

/-- Model of `sns.color_palette('plasma', 2)`. -/
def plasma_palette_2 : List Color :=
  [⟨50383/1000000, 29803/1000000, 527975/1000000, 1⟩,
   ⟨940015/1000000, 975158/1000000, 131326/1000000, 1⟩]

/-- One rendered bar patch: left edge, width, height and face color, as
exposed by `ax.patches`. -/
structure Bar where
  x : ℚ
  width : ℚ
  height : ℚ
  color : Color
deriving DecidableEq

/-- One overlaid error bar, as drawn by `ax.errorbar(center, height,
yerr=e, fmt='none', c='black', capsize=k)`. -/
structure ErrBar where
  x : ℚ
  y : ℚ
  yerr : FloatVal
  capsize : ℕ
deriving DecidableEq

/-- Mean of a list of rationals (the seaborn bar estimator). -/
def meanList (l : List ℚ) : ℚ :=
  l.sum / (l.length : ℚ)

/-- Model of a grouped `sns.barplot` with `n` hue levels dodged inside a
group of total width 0.8: for category index `i` and hue index `j` a bar of
width `0.8 / n` with left edge at `i - 0.4 + j * 0.8 / n`, height the mean
of `y` over the matching rows, face color the `j`-th palette entry;
category/hue combinations with no rows produce no patch. -/
def barplotBars (palette : List Color) (xOrder hueOrder : List String)
    (rows : List Record) (y : Record → ℚ) : List Bar :=
  ((List.range xOrder.length).map (fun i =>
    ((List.range hueOrder.length).map (fun j =>
      let w : ℚ := (4/5) / (hueOrder.length : ℚ)
      let c := xOrder.getD i ""
      let o := hueOrder.getD j ""
      let g := rows.filter (fun r => r.cipher == c && r.operation == o)
      if g.isEmpty then ([] : List Bar)
      else [{ x := (i : ℚ) - 2/5 + (j : ℚ) * w, width := w,
              height := meanList (g.map y),
              color := palette.getD j ⟨0, 0, 0, 1⟩ }])).flatten)).flatten

/-- Python list indexing `l[i]`: negative indices count from the end,
out-of-range indices raise (modelled as `none`). -/
def pyGet (l : List String) (i : ℤ) : Option String :=
  if 0 ≤ i then l.get? i.toNat
  else if (-i).toNat ≤ l.length then l.get? (l.length - (-i).toNat)
  else none

/-- Embedding of `ax.get_xticklabels()[int(round(bar.get_x() +
bar.get_width() / 2))].get_text()` (lines 31 and 80). -/
def x_val (labels : List String) (b : Bar) : Option String :=
  pyGet labels (round (b.x + b.width / 2))

/-- Embedding of the hue-recovery hack (lines 34 and 84): the label is
`encrypt` exactly when the bar face color equals the first palette color,
and `decrypt` in every other case. -/
def hueFromColor (palette0 : Color) (c : Color) : String :=
  if c = palette0 then "encrypt" else "decrypt"

/-- First-match row lookup feeding the error bars of the throughput chart
(lines 36-38): filter the derived table by cipher and operation and take
`.iloc[0]` of the Throughput_StdDev column, `none` when the filter is
empty. -/
def lookup_throughput_stddev (table : List (Record × FloatVal))
    (c o : String) : Option FloatVal :=
  match table.filter (fun rv => rv.1.cipher == c && rv.1.operation == o) with
  | [] => none
  | rv :: _ => some rv.2

/-- First-match row lookup feeding the error bars of the per-file-size chart
(lines 84-86): filter the facet subset by cipher and operation and take
`.iloc[0]` of the StdDev(ms) column. -/
def lookup_stddev (sub : List Record) (c o : String) : Option FloatVal :=
  match sub.filter (fun r => r.cipher == c && r.operation == o) with
  | [] => none
  | r :: _ => some (.finite r.stdDev)

/-- The `for bar in ax.patches` loop shared by both charts (lines 29-39 and
79-87): recover the cipher label from the tick position and the operation
from the face color, look the row up, silently skip the error bar when the
lookup is empty, and raise (`none`) only when the tick-label indexing
fails. -/
def errorBarLoop (labels : List String) (palette0 : Color)
    (lookup : String → String → Option FloatVal) (capsize : ℕ) :
    List Bar → Option (List ErrBar)
  | [] => some []
  | b :: rest =>
    match x_val labels b with
    | none => none
    | some lbl =>
      match errorBarLoop labels palette0 lookup capsize rest with
      | none => none
      | some tail =>
        match lookup lbl (hueFromColor palette0 b.color) with
        | none => some tail
        | some e =>
          some ({ x := b.x + b.width / 2, y := b.height, yerr := e,
                  capsize := capsize } :: tail)

/-- The derived error magnitude of line 22: `(Throughput(MB/s) /
MeanTime(ms)) * StdDev(ms)`, computed in float arithmetic. -/
def throughputStdDevOf (r : Record) : FloatVal :=
  fmul (fdiv (.finite r.throughput) (.finite r.meanTime)) (.finite r.stdDev)

/-- A dataframe on the Python heap: its rows, plus the optional derived
Throughput_StdDev column (present only after the line-22 assignment). -/
structure Frame where
  rows : List Record
  derivedCol : Option (List FloatVal)
deriving DecidableEq, Inhabited

/-- Heap after `df = pd.read_csv(...)` (plus the categorical casts, which do
not change the stored values): one frame, referenced by `df`. -/
def store_after_load (rows : List Record) : List Frame :=
  [{ rows := rows, derivedCol := none }]

/-- Heap after `df_large_file = df[mask].copy()` (line 21): a fresh frame is
allocated for the filtered copy; `df` is reference 0, `df_large_file` is
reference 1. -/
def store_after_copy (rows : List Record) : List Frame :=
  store_after_load rows ++ [{ rows := df_large_file rows, derivedCol := none }]

/-- In-place column assignment `frame['Throughput_StdDev'] = ...` on the
frame at reference `i`. -/
def assignDerivedCol (s : List Frame) (i : ℕ) : List Frame :=
  s.set i { rows := (s.getD i default).rows,
            derivedCol := some ((s.getD i default).rows.map throughputStdDevOf) }

/-- Heap after line 22: the derived column has been assigned on the copy
(reference 1). -/
def store_after_derive (rows : List Record) : List Frame :=
  assignDerivedCol (store_after_copy rows) 1

/-- The rows of `df_large_file` paired with their Throughput_StdDev values,
read back from the heap: the table the chart-1 error-bar lookup consults. -/
def largeFileTable (rows : List Record) : List (Record × FloatVal) :=
  let f := (store_after_derive rows).getD 1 default
  f.rows.zip (f.derivedCol.getD [])

/-- The rendered throughput chart (plot 1). -/
structure Chart1 where
  bars : List Bar
  errBars : List ErrBar
  title : String
  ylabel : String
  xlabel : String
  legendTitle : String
deriving DecidableEq

/-- One facet (panel) of the per-file-size chart. -/
structure Facet where
  filename : String
  title : String
  yscale : String
  bars : List Bar
  errBars : List ErrBar
deriving DecidableEq

/-- The rendered per-file-size chart (plot 2). -/
structure Chart2 where
  facets : List Facet
  sharey : Bool
  suptitle : String
  xlabel : String
  ylabel : String
deriving DecidableEq

/-- Plot 1 (lines 24-48): grouped barplot of Throughput(MB/s) over the
large-file table, then the error-bar loop with the Throughput_StdDev lookup
and capsize 4; `none` when the loop raises. -/
def buildChart1 (dfRows : List Record) (table : List (Record × FloatVal)) :
    Option Chart1 :=
  let xOrder := cipher_categories dfRows
  let hueOrder := operation_categories dfRows
  let bars := barplotBars viridis_palette_2 xOrder hueOrder
    (table.map (fun rv => rv.1)) (fun r => r.throughput)
  match errorBarLoop xOrder (viridis_palette_2.getD 0 ⟨0, 0, 0, 1⟩)
      (lookup_throughput_stddev table) 4 bars with
  | none => none
  | some ebs =>
    some { bars := bars, errBars := ebs,
           title := "Throughput for 2.5MB File (Larger is Better)",
           ylabel := "Throughput (MB/s)", xlabel := "Cipher",
           legendTitle := "Operation" }

/-- One panel as `sns.catplot(..., col='Filename', sharey=False,
errorbar=None)` first creates it (lines 54-75): linear y-scale, title
`File: ` followed by the column value, no error bars yet. -/
def catplotFacet (dfRows : List Record) (name : String) : Facet :=
  { filename := name, title := "File: " ++ name, yscale := "linear",
    bars := barplotBars plasma_palette_2 (cipher_categories dfRows)
      (operation_categories dfRows)
      (dfRows.filter (fun r => r.filename == name)) (fun r => r.meanTime),
    errBars := [] }

/-- The per-facet pass of lines 78-87: set the y-scale to log, then run the
error-bar loop against `sub_df = df[df.Filename == name]` with the
StdDev(ms) lookup and capsize 3. -/
def decorateFacet (dfRows : List Record) (f : Facet) : Option Facet :=
  let sub_df := dfRows.filter (fun r => r.filename == f.filename)
  match errorBarLoop (cipher_categories dfRows)
      (plasma_palette_2.getD 0 ⟨0, 0, 0, 1⟩) (lookup_stddev sub_df) 3 f.bars with
  | none => none
  | some ebs => some { f with yscale := "log", errBars := ebs }

/-- Apply a fallible function to every element, failing as soon as one
application fails (the semantics of the `for i, ax in enumerate(...)` loop,
whose uncaught exception aborts the run). -/
def mapOption {α β : Type} (f : α → Option β) : List α → Option (List β)
  | [] => some []
  | a :: t =>
    match f a with
    | none => none
    | some b =>
      match mapOption f t with
      | none => none
      | some bs => some (b :: bs)

/-- Plot 2 (lines 53-92): one facet per distinct Filename value in order of
appearance, `sharey=False`, each facet then log-scaled and decorated with
error bars. -/
def buildChart2 (dfRows : List Record) : Option Chart2 :=
  let names := uniqueInOrder (dfRows.map (fun r => r.filename))
  match mapOption (decorateFacet dfRows) (names.map (catplotFacet dfRows)) with
  | none => none
  | some facets =>
    some { facets := facets, sharey := false,
           suptitle := "Mean Execution Time by File Size (Smaller is Better)",
           xlabel := "Cipher", ylabel := "Mean Time (ms)" }

/-- A saved image: one of the two chart figures. -/
inductive Image where
  | chart1 (c : Chart1)
  | chart2 (c : Chart2)
deriving DecidableEq

/-- The disk state the script can observe or affect: the directory the
script lives in, whether `benchmark_results.csv` exists there, its parsed
rows, and the names of the other files in the directory (which the script
never reads). -/
structure FileSystem where
  resultsDir : String
  csvPresent : Bool
  csvRows : List Record
  otherFiles : List String
deriving DecidableEq

def csv_path (fs : FileSystem) : String :=
  fs.resultsDir ++ "/benchmark_results.csv"

def throughput_plot_path (fs : FileSystem) : String :=
  fs.resultsDir ++ "/throughput_comparison_with_stddev.png"

def performance_plot_path (fs : FileSystem) : String :=
  fs.resultsDir ++ "/performance_comparison_with_stddev.png"

/-- Observable outcome of one run: the lines printed to stdout, the images
written (path and figure), and the uncaught exception if one was raised. -/
structure RunResult where
  printed : List String
  images : List (String × Image)
  err : Option String
deriving DecidableEq

/-- Embedding of `generate_plots()` (lines 6-92): check the CSV exists
(early return with a message otherwise), load it, build and save plot 1,
then build and save plot 2, printing each saved path. -/
def generate_plots (fs : FileSystem) : RunResult :=
  if fs.csvPresent then
    let dfRows := ((store_after_derive fs.csvRows).getD 0 default).rows
    let table := largeFileTable fs.csvRows
    match buildChart1 dfRows table with
    | none => { printed := [], images := [], err := some "IndexError" }
    | some c1 =>
      let p1 := throughput_plot_path fs
      match buildChart2 dfRows with
      | none =>
        { printed := ["Saved throughput plot to: " ++ p1],
          images := [(p1, Image.chart1 c1)], err := some "IndexError" }
      | some c2 =>
        let p2 := performance_plot_path fs
        { printed := ["Saved throughput plot to: " ++ p1,
                      "Saved performance plot to: " ++ p2],
          images := [(p1, Image.chart1 c1), (p2, Image.chart2 c2)],
          err := none }
  else
    { printed := ["Error: " ++ csv_path fs ++ " not found."],
      images := [], err := none }

/-- Disk state after a run: the written image files now exist alongside the
input; nothing the script reads is changed. -/
def applyRun (fs : FileSystem) : FileSystem :=
  { fs with otherFiles := fs.otherFiles ++ (generate_plots fs).images.map Prod.fst }

theorem zip_self_map {α β : Type} (g : α → β) (l : List α) :
    l.zip (l.map g) = l.map (fun a => (a, g a)) := by
  induction l with
  | nil => rfl
  | cons a t ih => simp [ih]

theorem largeFileTable_eq (rows : List Record) :
    largeFileTable rows = (df_large_file rows).map (fun r => (r, throughputStdDevOf r)) := by
  have h : largeFileTable rows =
      (df_large_file rows).zip ((df_large_file rows).map throughputStdDevOf) := rfl
  rw [h, zip_self_map]

theorem lookup_map_self (g : Record → FloatVal) (l : List Record) (r : Record)
    (h : r ∈ l) :
    List.lookup r (l.map (fun a => (a, g a))) = some (g r) := by
  induction l with
  | nil => cases h
  | cons a t ih =>
    rcases List.mem_cons.mp h with rfl | hmem
    · simp [List.lookup]
    · by_cases hra : r = a
      · subst hra; simp [List.lookup]
      · have hbeq : (r == a) = false := by
          simpa using hra
        simp [List.lookup, hbeq]
        exact ih hmem

theorem mem_uniqueInOrder (a : String) (l : List String) :
    a ∈ uniqueInOrder l ↔ a ∈ l := by
  induction l using uniqueInOrder.induct with
  | case1 => simp [uniqueInOrder]
  | case2 x xs ih =>
    rw [uniqueInOrder]
    by_cases hax : a = x
    · subst hax; simp
    · simp only [List.mem_cons, ih, List.mem_filter, hax, false_or]
      constructor
      · exact fun h => h.1
      · exact fun h => ⟨h, by simpa using hax⟩

theorem uniqueInOrder_nodup (l : List String) : (uniqueInOrder l).Nodup := by
  induction l using uniqueInOrder.induct with
  | case1 => simp [uniqueInOrder]
  | case2 x xs ih =>
    rw [uniqueInOrder, List.nodup_cons]
    refine ⟨fun hmem => ?_, ih⟩
    rw [mem_uniqueInOrder] at hmem
    simpa using (List.mem_filter.mp hmem).2

theorem round_bar_center (i j n : ℕ) (hj : j < n) :
    round ((i : ℚ) - 2/5 + (j : ℚ) * ((4/5) / (n : ℚ)) + ((4/5) / (n : ℚ)) / 2)
      = (i : ℤ) := by
  have hn0 : 0 < n := Nat.lt_of_le_of_lt (Nat.zero_le j) hj
  have hnq : 0 < (n : ℚ) := by exact_mod_cast hn0
  have hjq : (j : ℚ) + 1 ≤ (n : ℚ) := by exact_mod_cast hj
  have hj0 : 0 ≤ (j : ℚ) := by positivity
  set w : ℚ := (4/5) / (n : ℚ) with hw
  have hw0 : 0 < w := by positivity
  have hupper : (j : ℚ) * w + w / 2 < 9/10 := by
    have h1 : (j : ℚ) * w + w / 2 = ((j : ℚ) * (4/5) + 2/5) / (n : ℚ) := by
      rw [hw]; field_simp; ring
    rw [h1, div_lt_iff₀ hnq]
    linarith
  have hlower : 0 < (j : ℚ) * w + w / 2 := by positivity
  rw [round_eq]
  have hre : (i : ℚ) - 2/5 + (j : ℚ) * w + w / 2 + 1/2
      = ((j : ℚ) * w + w / 2 + 1/10) + (i : ℕ) := by ring
  rw [hre, Int.floor_add_nat]
  have hfl : ⌊(j : ℚ) * w + w / 2 + 1/10⌋ = 0 := by
    rw [Int.floor_eq_zero_iff]
    constructor
    · linarith
    · simpa using by linarith
  rw [hfl]
  simp

theorem mem_barplotBars {palette : List Color} {xOrder hueOrder : List String}
    {rows : List Record} {y : Record → ℚ} {b : Bar}
    (hb : b ∈ barplotBars palette xOrder hueOrder rows y) :
    ∃ i j : ℕ, i < xOrder.length ∧ j < hueOrder.length ∧
      b.x = (i : ℚ) - 2/5 + (j : ℚ) * ((4/5) / (hueOrder.length : ℚ)) ∧
      b.width = (4/5) / (hueOrder.length : ℚ) := by
  simp only [barplotBars, List.mem_flatten, List.mem_map, List.mem_range] at hb
  obtain ⟨L, ⟨i, hi, rfl⟩, hbL⟩ := hb
  simp only [List.mem_flatten, List.mem_map, List.mem_range] at hbL
  obtain ⟨M, ⟨j, hj, rfl⟩, hbM⟩ := hbL
  split at hbM
  · cases hbM
  · rcases List.mem_singleton.mp hbM with rfl
    exact ⟨i, j, hi, hj, rfl, rfl⟩

theorem x_val_barplot_isSome {palette : List Color} {xOrder hueOrder : List String}
    {rows : List Record} {y : Record → ℚ} {b : Bar}
    (hb : b ∈ barplotBars palette xOrder hueOrder rows y) :
    (x_val xOrder b).isSome = true := by
  obtain ⟨i, j, hi, hj, hx, hw⟩ := mem_barplotBars hb
  rw [x_val, hx, hw, round_bar_center i j hueOrder.length hj]
  rw [pyGet, if_pos (by positivity)]
  rw [Int.toNat_natCast]
  rw [List.get?_eq_get hi]
  rfl

theorem errorBarLoop_isSome_of (labels : List String) (p0 : Color)
    (lk : String → String → Option FloatVal) (cap : ℕ) (bars : List Bar)
    (h : ∀ b ∈ bars, (x_val labels b).isSome = true) :
    (errorBarLoop labels p0 lk cap bars).isSome = true := by
  induction bars with
  | nil => simp [errorBarLoop]
  | cons b rest ih =>
    have hb := h b (by simp)
    obtain ⟨lbl, hlbl⟩ := Option.isSome_iff_exists.mp hb
    have hrest := ih (fun b hmem => h b (List.mem_cons_of_mem _ hmem))
    obtain ⟨tail, htail⟩ := Option.isSome_iff_exists.mp hrest
    rw [errorBarLoop, hlbl, htail]
    cases hlk : lk lbl (hueFromColor p0 b.color) <;> simp [hlk]

theorem mapOption_isSome {α β : Type} (f : α → Option β) (l : List α)
    (h : ∀ a ∈ l, (f a).isSome = true) : (mapOption f l).isSome = true := by
  induction l with
  | nil => simp [mapOption]
  | cons a t ih =>
    obtain ⟨b, hb⟩ := Option.isSome_iff_exists.mp (h a (by simp))
    obtain ⟨bs, hbs⟩ := Option.isSome_iff_exists.mp
      (ih (fun x hmem => h x (List.mem_cons_of_mem _ hmem)))
    simp [mapOption, hb, hbs]

theorem decorateFacet_isSome_of (dfRows : List Record) (f : Facet)
    (h : ∀ b ∈ f.bars, (x_val (cipher_categories dfRows) b).isSome = true) :
    (decorateFacet dfRows f).isSome = true := by
  obtain ⟨ebs, hebs⟩ := Option.isSome_iff_exists.mp
    (errorBarLoop_isSome_of (cipher_categories dfRows)
      (plasma_palette_2.getD 0 ⟨0, 0, 0, 1⟩)
      (lookup_stddev (dfRows.filter (fun r => r.filename == f.filename)))
      3 f.bars h)
  simp only [decorateFacet]
  rw [hebs]
  rfl

theorem decorateFacet_fields {dfRows : List Record} {f f' : Facet}
    (h : decorateFacet dfRows f = some f') :
    f'.filename = f.filename ∧ f'.title = f.title ∧ f'.yscale = "log" := by
  simp only [decorateFacet] at h
  split at h
  · cases h
  · injection h with h
    subst h
    exact ⟨rfl, rfl, rfl⟩

theorem mapOption_decorate_fields (dfRows : List Record) :
    ∀ (l fs : List Facet), mapOption (decorateFacet dfRows) l = some fs →
      fs.map (fun f => f.filename) = l.map (fun f => f.filename) ∧
      ∀ f' ∈ fs, ∃ f ∈ l,
        f'.filename = f.filename ∧ f'.title = f.title ∧ f'.yscale = "log" := by
  intro l
  induction l with
  | nil =>
    intro fs h
    simp only [mapOption, Option.some.injEq] at h
    subst h
    simp
  | cons a t ih =>
    intro fs h
    simp only [mapOption] at h
    rcases ha : decorateFacet dfRows a with _ | fa
    · rw [ha] at h; cases h
    · rw [ha] at h
      rcases ht : mapOption (decorateFacet dfRows) t with _ | fts
      · rw [ht] at h; cases h
      · rw [ht] at h
        injection h with h
        subst h
        obtain ⟨h1, h2⟩ := ih fts ht
        obtain ⟨ha1, ha2, ha3⟩ := decorateFacet_fields ha
        refine ⟨by simp [h1, ha1], ?_⟩
        intro f' hf'
        rcases List.mem_cons.mp hf' with rfl | hf'
        · exact ⟨a, by simp, ha1, ha2, ha3⟩
        · obtain ⟨f, hfm, hfs⟩ := h2 f' hf'
          exact ⟨f, List.mem_cons_of_mem _ hfm, hfs⟩

theorem buildChart1_isSome (dfRows : List Record) (table : List (Record × FloatVal)) :
    (buildChart1 dfRows table).isSome = true := by
  have hbars : ∀ b ∈ barplotBars viridis_palette_2 (cipher_categories dfRows)
      (operation_categories dfRows) (table.map (fun rv => rv.1))
      (fun r => r.throughput),
      (x_val (cipher_categories dfRows) b).isSome = true :=
    fun b hb => x_val_barplot_isSome hb
  obtain ⟨ebs, hebs⟩ := Option.isSome_iff_exists.mp
    (errorBarLoop_isSome_of (cipher_categories dfRows)
      (viridis_palette_2.getD 0 ⟨0, 0, 0, 1⟩)
      (lookup_throughput_stddev table) 4 _ hbars)
  simp only [buildChart1]
  rw [hebs]
  rfl

theorem buildChart2_isSome (dfRows : List Record) :
    (buildChart2 dfRows).isSome = true := by
  have hf : ∀ f ∈ (uniqueInOrder (dfRows.map (fun r => r.filename))).map
      (catplotFacet dfRows), (decorateFacet dfRows f).isSome = true := by
    intro f hfm
    obtain ⟨name, _, rfl⟩ := List.mem_map.mp hfm
    apply decorateFacet_isSome_of
    intro b hb
    simp only [catplotFacet] at hb
    exact x_val_barplot_isSome hb
  obtain ⟨fs, hfs⟩ := Option.isSome_iff_exists.mp (mapOption_isSome _ _ hf)
  simp only [buildChart2]
  rw [hfs]
  rfl

/-- C1: for every row of the filtered subset (rows whose Filename contains
the size marker), the derived column Throughput_StdDev stored in the table
equals exactly Throughput(MB/s) divided by MeanTime(ms), multiplied by
StdDev(ms) — as the float expression of line 22, and, whenever MeanTime(ms)
is nonzero, as the exact rational value of that formula. -/
theorem claim_C1_derived_column (rows : List Record) (r : Record)
    (h : r ∈ df_large_file rows) :
    List.lookup r (largeFileTable rows)
      = some (fmul (fdiv (FloatVal.finite r.throughput) (FloatVal.finite r.meanTime))
          (FloatVal.finite r.stdDev))
    ∧ (r.meanTime ≠ 0 →
        List.lookup r (largeFileTable rows)
          = some (FloatVal.finite (r.throughput / r.meanTime * r.stdDev))) := by
  have hl := lookup_map_self throughputStdDevOf (df_large_file rows) r h
  rw [largeFileTable_eq]
  refine ⟨hl, fun hm => ?_⟩
  rw [hl]
  simp [throughputStdDevOf, fdiv, fmul, hm]

theorem claim_C1_witness :
    (⟨"AES-128-CBC", "encrypt", "data_2_5MB.bin", 2, 3, 5⟩ : Record)
      ∈ df_large_file [⟨"AES-128-CBC", "encrypt", "data_2_5MB.bin", 2, 3, 5⟩]
    ∧ ((⟨"AES-128-CBC", "encrypt", "data_2_5MB.bin", 2, 3, 5⟩ : Record).meanTime ≠ 0)
    ∧ List.lookup (⟨"AES-128-CBC", "encrypt", "data_2_5MB.bin", 2, 3, 5⟩ : Record)
        (largeFileTable [⟨"AES-128-CBC", "encrypt", "data_2_5MB.bin", 2, 3, 5⟩])
        = some (FloatVal.finite ((5 : ℚ) / 2 * 3)) := by
  have h1 : (⟨"AES-128-CBC", "encrypt", "data_2_5MB.bin", 2, 3, 5⟩ : Record)
      ∈ df_large_file [⟨"AES-128-CBC", "encrypt", "data_2_5MB.bin", 2, 3, 5⟩] := by
    simp [df_large_file, str_contains, containsSeq, beginsWith]
  have h2 : ((⟨"AES-128-CBC", "encrypt", "data_2_5MB.bin", 2, 3, 5⟩ : Record).meanTime
      : ℚ) ≠ 0 := by
    simp
  exact ⟨h1, h2, (claim_C1_derived_column _ _ h1).2 h2⟩

/-- C2: if the input CSV does not exist at the expected path, the generator
prints the not-found message and returns immediately: no image file is
written, no exception is raised, and nothing else is printed. -/
theorem claim_C2_missing_csv (fs : FileSystem) (h : fs.csvPresent = false) :
    generate_plots fs =
      { printed := ["Error: " ++ csv_path fs ++ " not found."],
        images := [], err := none } := by
  simp [generate_plots, h]

theorem claim_C2_witness :
    (FileSystem.mk "results" false [] []).csvPresent = false
    ∧ generate_plots (FileSystem.mk "results" false [] []) =
        { printed := ["Error: " ++ csv_path (FileSystem.mk "results" false [] [])
            ++ " not found."],
          images := [], err := none } :=
  ⟨rfl, claim_C2_missing_csv (FileSystem.mk "results" false [] []) rfl⟩

/-- C3: for a filtered-subset row whose MeanTime(ms) is zero the derived
column is still a defined value — the float division yields an infinity or
NaN scaled by StdDev(ms), never an exception; in particular, with positive
throughput and positive standard deviation it is positive infinity. -/
theorem claim_C3_divzero_defined (rows : List Record) (r : Record)
    (h : r ∈ df_large_file rows) (hm : r.meanTime = 0) :
    List.lookup r (largeFileTable rows)
      = some (fmul (if 0 < r.throughput then FloatVal.posInf
          else if r.throughput < 0 then FloatVal.negInf else FloatVal.nan)
          (FloatVal.finite r.stdDev))
    ∧ (0 < r.throughput → 0 < r.stdDev →
        List.lookup r (largeFileTable rows) = some FloatVal.posInf) := by
  have hl := lookup_map_self throughputStdDevOf (df_large_file rows) r h
  rw [largeFileTable_eq]
  constructor
  · rw [hl]
    simp [throughputStdDevOf, fdiv, hm]
  · intro ht hs
    rw [hl]
    simp [throughputStdDevOf, fdiv, fmul, hm, ht, hs]

theorem claim_C3_witness :
    (⟨"AES-256-GCM", "decrypt", "big_2_5MB", 0, 3, 5⟩ : Record)
      ∈ df_large_file [⟨"AES-256-GCM", "decrypt", "big_2_5MB", 0, 3, 5⟩]
    ∧ ((⟨"AES-256-GCM", "decrypt", "big_2_5MB", 0, 3, 5⟩ : Record).meanTime
        : ℚ) = 0
    ∧ List.lookup (⟨"AES-256-GCM", "decrypt", "big_2_5MB", 0, 3, 5⟩ : Record)
        (largeFileTable [⟨"AES-256-GCM", "decrypt", "big_2_5MB", 0, 3, 5⟩])
        = some FloatVal.posInf := by
  have h1 : (⟨"AES-256-GCM", "decrypt", "big_2_5MB", 0, 3, 5⟩ : Record)
      ∈ df_large_file [⟨"AES-256-GCM", "decrypt", "big_2_5MB", 0, 3, 5⟩] := by
    simp [df_large_file, str_contains, containsSeq, beginsWith]
  exact ⟨h1, rfl, (claim_C3_divzero_defined _ _ h1 rfl).2 (by decide) (by decide)⟩

/-- C4: in the error-bar pass of either chart, a bar whose (Cipher,
Operation) lookup comes back empty is silently skipped: the loop result is
exactly the loop result without that bar — no error bar for it, no
exception, all other bars processed unchanged. -/
theorem claim_C4_empty_lookup_skips (labels : List String) (p0 : Color)
    (lk : String → String → Option FloatVal) (cap : ℕ)
    (pre post : List Bar) (b : Bar) (lbl : String)
    (hx : x_val labels b = some lbl)
    (hempty : lk lbl (hueFromColor p0 b.color) = none) :
    errorBarLoop labels p0 lk cap (pre ++ b :: post)
      = errorBarLoop labels p0 lk cap (pre ++ post) := by
  induction pre with
  | nil =>
    simp only [List.nil_append, errorBarLoop, hx]
    rcases hp : errorBarLoop labels p0 lk cap post with _ | tail
    · simp [hp]
    · simp [hp, hempty]
  | cons a pre ih =>
    simp only [List.cons_append, errorBarLoop, List.append_eq]
    rw [ih]

theorem claim_C4_witness :
    x_val ["AES"] (Bar.mk 0 0 5 ⟨1, 1, 1, 1⟩) = some "AES"
    ∧ (fun _ _ => (none : Option FloatVal)) "AES"
        (hueFromColor ⟨0, 0, 0, 1⟩ (Bar.mk 0 0 5 ⟨1, 1, 1, 1⟩).color) = none
    ∧ errorBarLoop ["AES"] ⟨0, 0, 0, 1⟩ (fun _ _ => none) 4
        ([] ++ Bar.mk 0 0 5 ⟨1, 1, 1, 1⟩ :: [])
      = errorBarLoop ["AES"] ⟨0, 0, 0, 1⟩ (fun _ _ => none) 4 ([] ++ []) := by
  have h1 : x_val ["AES"] (Bar.mk 0 0 5 ⟨1, 1, 1, 1⟩) = some "AES" := by
    simp [x_val, pyGet]
  exact ⟨h1, rfl,
    claim_C4_empty_lookup_skips ["AES"] ⟨0, 0, 0, 1⟩ (fun _ _ => none) 4
      [] [] (Bar.mk 0 0 5 ⟨1, 1, 1, 1⟩) "AES" h1 rfl⟩

/-- C5: the per-file-size chart always succeeds and produces exactly one
panel per distinct Filename value (in order of first appearance, without
duplicates, covering exactly the filenames present), every panel log-scaled
on the y-axis and titled from its filename, with sharey disabled. -/
theorem claim_C5_one_panel_per_filename (rows : List Record) :
    ∃ c2, buildChart2 rows = some c2
      ∧ c2.facets.map (fun f => f.filename)
          = uniqueInOrder (rows.map (fun r => r.filename))
      ∧ (c2.facets.map (fun f => f.filename)).Nodup
      ∧ (∀ s, s ∈ c2.facets.map (fun f => f.filename)
            ↔ s ∈ rows.map (fun r => r.filename))
      ∧ (∀ f ∈ c2.facets, f.yscale = "log" ∧ f.title = "File: " ++ f.filename)
      ∧ c2.sharey = false := by
  obtain ⟨c2, hc2⟩ := Option.isSome_iff_exists.mp (buildChart2_isSome rows)
  refine ⟨c2, hc2, ?_⟩
  simp only [buildChart2] at hc2
  rcases hmo : mapOption (decorateFacet rows)
      ((uniqueInOrder (rows.map (fun r => r.filename))).map (catplotFacet rows))
    with _ | fs
  · rw [hmo] at hc2; cases hc2
  · rw [hmo] at hc2
    injection hc2 with hc2
    subst hc2
    obtain ⟨h1, h2⟩ := mapOption_decorate_fields rows _ fs hmo
    have hnames : fs.map (fun f => f.filename)
        = uniqueInOrder (rows.map (fun r => r.filename)) := by
      rw [h1, List.map_map]
      have hcomp : ((fun f => f.filename) ∘ catplotFacet rows) = fun n => n := by
        funext n; rfl
      rw [hcomp, List.map_id']
    refine ⟨hnames, ?_, ?_, ?_, rfl⟩
    · rw [hnames]; exact uniqueInOrder_nodup _
    · intro s
      rw [hnames, mem_uniqueInOrder]
    · intro f' hf'
      obtain ⟨f, hfm, hfn, hft, hfy⟩ := h2 f' hf'
      obtain ⟨name, _, rfl⟩ := List.mem_map.mp hfm
      refine ⟨hfy, ?_⟩
      rw [hft, hfn]
      simp [catplotFacet]

/-- C6: the error-bar lookup of each chart uses only the first matching row;
appending further duplicate rows for the same (Cipher, Operation) key leaves
the looked-up error value unchanged. -/
theorem claim_C6_first_match_wins (table : List (Record × FloatVal))
    (sub : List Record) (c o : String) (rv : Record × FloatVal)
    (rest : List (Record × FloatVal)) (r2 : Record) (rest2 : List Record)
    (h1 : table.filter (fun x => x.1.cipher == c && x.1.operation == o)
        = rv :: rest)
    (h2 : sub.filter (fun x => x.cipher == c && x.operation == o)
        = r2 :: rest2) :
    (lookup_throughput_stddev table c o = some rv.2
      ∧ ∀ dups, lookup_throughput_stddev (table ++ dups) c o = some rv.2)
    ∧ (lookup_stddev sub c o = some (FloatVal.finite r2.stdDev)
      ∧ ∀ dups2, lookup_stddev (sub ++ dups2) c o
          = some (FloatVal.finite r2.stdDev)) := by
  refine ⟨⟨?_, ?_⟩, ?_, ?_⟩
  · rw [lookup_throughput_stddev, h1]
  · intro dups
    rw [lookup_throughput_stddev, List.filter_append, h1]
    rfl
  · rw [lookup_stddev, h2]
  · intro dups2
    rw [lookup_stddev, List.filter_append, h2]
    rfl

theorem claim_C6_witness :
    ([((⟨"A", "encrypt", "f_2_5MB", 2, 3, 5⟩ : Record), FloatVal.finite 7),
      ((⟨"A", "encrypt", "f_2_5MB", 4, 6, 10⟩ : Record), FloatVal.finite 9)].filter
        (fun x => x.1.cipher == "A" && x.1.operation == "encrypt")
      = ((⟨"A", "encrypt", "f_2_5MB", 2, 3, 5⟩ : Record), FloatVal.finite 7)
        :: [((⟨"A", "encrypt", "f_2_5MB", 4, 6, 10⟩ : Record), FloatVal.finite 9)])
    ∧ ([(⟨"A", "encrypt", "1MB", 2, 3, 5⟩ : Record),
        (⟨"A", "encrypt", "1MB", 4, 6, 10⟩ : Record)].filter
        (fun x => x.cipher == "A" && x.operation == "encrypt")
      = (⟨"A", "encrypt", "1MB", 2, 3, 5⟩ : Record)
        :: [(⟨"A", "encrypt", "1MB", 4, 6, 10⟩ : Record)])
    ∧ lookup_throughput_stddev
        [((⟨"A", "encrypt", "f_2_5MB", 2, 3, 5⟩ : Record), FloatVal.finite 7),
         ((⟨"A", "encrypt", "f_2_5MB", 4, 6, 10⟩ : Record), FloatVal.finite 9)]
        "A" "encrypt" = some (FloatVal.finite 7)
    ∧ lookup_stddev
        ([(⟨"A", "encrypt", "1MB", 2, 3, 5⟩ : Record),
          (⟨"A", "encrypt", "1MB", 4, 6, 10⟩ : Record)]
         ++ [(⟨"A", "encrypt", "1MB", 8, 12, 20⟩ : Record)])
        "A" "encrypt" = some (FloatVal.finite 3) := by
  have h := claim_C6_first_match_wins
    [((⟨"A", "encrypt", "f_2_5MB", 2, 3, 5⟩ : Record), FloatVal.finite 7),
     ((⟨"A", "encrypt", "f_2_5MB", 4, 6, 10⟩ : Record), FloatVal.finite 9)]
    [(⟨"A", "encrypt", "1MB", 2, 3, 5⟩ : Record),
     (⟨"A", "encrypt", "1MB", 4, 6, 10⟩ : Record)]
    "A" "encrypt"
    ((⟨"A", "encrypt", "f_2_5MB", 2, 3, 5⟩ : Record), FloatVal.finite 7)
    [((⟨"A", "encrypt", "f_2_5MB", 4, 6, 10⟩ : Record), FloatVal.finite 9)]
    (⟨"A", "encrypt", "1MB", 2, 3, 5⟩ : Record)
    [(⟨"A", "encrypt", "1MB", 4, 6, 10⟩ : Record)]
    rfl rfl
  exact ⟨rfl, rfl, h.1.1, h.2.2 [(⟨"A", "encrypt", "1MB", 8, 12, 20⟩ : Record)]⟩

/-- C7: the generator is a deterministic function of the input file alone;
re-running it on the disk state left behind by a first run (the two written
images now present) produces the identical result — same printed lines,
same images, same absence of errors. -/
theorem claim_C7_rerun_identical (fs : FileSystem) :
    generate_plots (applyRun fs) = generate_plots fs := rfl

/-- C8: the loaded Dataset is never mutated: after the filtered copy is
created and the derived column is assigned on it, the frame `df` still holds
exactly the loaded rows with no derived column, and the second chart built
from it coincides with the second chart built from the loaded rows. -/
theorem claim_C8_original_frame_unchanged (rows : List Record) :
    (store_after_derive rows).getD 0 default = { rows := rows, derivedCol := none }
    ∧ ((store_after_derive rows).getD 0 default).rows = rows
    ∧ buildChart2 (((store_after_derive rows).getD 0 default).rows)
        = buildChart2 rows :=
  ⟨rfl, rfl, rfl⟩

/-- C9: membership in the large-file subset is substring containment, not
equality: a row is kept exactly when the marker `2_5MB` occurs contiguously
anywhere inside its Filename. -/
theorem claim_C9_membership_is_containment (rows : List Record) (r : Record) :
    r ∈ df_large_file rows ↔
      r ∈ rows ∧ ∃ pre post,
        r.filename.data = pre ++ (("2_5MB" : String).data ++ post) := by
  rw [df_large_file, List.mem_filter]
  simp only [str_contains, containsSeq_iff]

/-- C10: the operation recovered from a bar color is a total binary
classification: it is `encrypt` exactly when the face color equals the first
palette color and `decrypt` in every other case, so it always lies in the
set containing encrypt and decrypt. -/
theorem claim_C10_hue_binary_total (p0 c : Color) :
    (hueFromColor p0 c = "encrypt" ↔ c = p0)
    ∧ (hueFromColor p0 c = "encrypt" ∨ hueFromColor p0 c = "decrypt") := by
  unfold hueFromColor
  by_cases h : c = p0 <;> simp [h]

end PlotResults
